import Mathlib

/-!
Verification of the ffmpeg HTTP video-processing server (src/server.js).

The server is shallowly embedded: the local scratch filesystem and the
Supabase storage bucket are association lists from string keys to string
contents; the external ffmpeg engine is an opaque parameter delivering
exactly one terminal signal (completed with a finalized output, or failed
with a message); the storage service's upload outcome and public-URL
resolver are likewise parameters.  Every handler and helper of the source
is translated into an executable Lean function, and the stated properties
are proved about those functions.
-/

namespace FfmpegServer

/-- A path on the local filesystem, or an artifact name in storage. -/
abbrev Path := String

/-- Association list from string keys to string contents.  Models both the
local scratch filesystem (path to file contents) and the storage bucket
(artifact name to artifact contents). -/
abbrev KV := List (Path × String)

/-- Lookup of a key in an association list; the first matching entry wins. -/
def kvLookup : KV → Path → Option String
  | [], _ => none
  | (q, c) :: rest, p => if q = p then some c else kvLookup rest p

/-- Remove every entry with the given key from an association list. -/
def kvErase : KV → Path → KV
  | [], _ => []
  | (q, c) :: rest, p => if q = p then kvErase rest p else (q, c) :: kvErase rest p

/-- The local scratch filesystem: existing paths and their contents. -/
abbrev FS := KV

/-- The storage bucket: artifact names and their contents. -/
abbrev Storage := KV

/-- Model of fs.existsSync: does the path exist on the local filesystem. -/
def existsSync (fs : FS) (p : Path) : Bool := (kvLookup fs p).isSome

/-- Model of fs.unlinkSync restricted to the success case: remove the path. -/
def unlinkSync (fs : FS) (p : Path) : FS := kvErase fs p

/-- Model of fs.unlinkSync with its failure behaviour: unlinking a path that
does not exist raises ENOENT. -/
def unlinkSyncE (fs : FS) (p : Path) : Except String FS :=
  if existsSync fs p then Except.ok (unlinkSync fs p) else Except.error ("ENOENT")

/-- Writing a finalized file to the local filesystem (the engine's output
appearing at the output path). -/
def writeFileFs (fs : FS) (p : Path) (c : String) : FS := (p, c) :: kvErase fs p

/-- One iteration of the forEach inside cleanupFiles, src/server.js line 25:
if (file && fs.existsSync(file)) fs.unlinkSync(file).  JavaScript truthiness
of a string is nonemptiness, so the guard reads: file is nonempty and exists. -/
def cleanupStep (fs : FS) (f : Path) : FS :=
  if (f != "") && existsSync fs f then unlinkSync fs f else fs

/-- cleanupFiles, src/server.js lines 23 to 27: delete every file of the list
that exists, skipping the rest. -/
def cleanupFiles (files : List Path) (fs : FS) : FS :=
  files.foldl cleanupStep fs

/-- cleanupFiles where unlinkSync is the raising variant unlinkSyncE, used to
state that cleanupFiles itself never raises. -/
def cleanupFilesE (files : List Path) (fs : FS) : Except String FS :=
  files.foldlM (fun s f => if (f != "") && existsSync s f then unlinkSyncE s f else Except.ok s) fs

theorem kvLookup_kvErase (fs : FS) (p q : Path) :
    kvLookup (kvErase fs p) q = if q = p then none else kvLookup fs q := by
  induction fs with
  | nil => simp [kvErase, kvLookup]
  | cons e rest ih =>
    obtain ⟨k, c⟩ := e
    by_cases hk : k = p
    · subst hk
      by_cases hq : q = k
      · subst hq
        simp [kvErase, kvLookup, ih]
      · simp [kvErase, kvLookup, hq, Ne.symm hq, ih]
    · by_cases hq : q = p
      · subst hq
        simp [kvErase, kvLookup, hk, ih]
      · by_cases hkq : k = q
        · subst hkq
          simp [kvErase, kvLookup, hk, hq, ih]
        · simp [kvErase, kvLookup, hk, hkq, hq, ih]

theorem kvLookup_none_of_not_existsSync (fs : FS) (p : Path)
    (h : existsSync fs p = false) : kvLookup fs p = none := by
  unfold existsSync at h
  exact Option.not_isSome_iff_eq_none.mp (by simp [h])

theorem kvLookup_cleanupStep (fs : FS) (f q : Path) :
    kvLookup (cleanupStep fs f) q = if q = f ∧ f ≠ "" then none else kvLookup fs q := by
  unfold cleanupStep
  by_cases hf : f = ""
  · simp [hf]
  · by_cases hex : existsSync fs f
    · simp only [hf, hex]
      by_cases hq : q = f <;>
        simp [unlinkSync, kvLookup_kvErase, hq, hf]
    · have hnone : kvLookup fs f = none :=
        kvLookup_none_of_not_existsSync fs f (by revert hex; cases existsSync fs f <;> simp)
      have : ¬((f != "") && existsSync fs f) = true := by
        revert hex; cases existsSync fs f <;> simp
      simp only [this, if_neg]
      by_cases hq : q = f <;> simp [hq, hf, hnone]

theorem kvLookup_cleanupFiles (files : List Path) (fs : FS) (q : Path) :
    kvLookup (cleanupFiles files fs) q =
      if q ∈ files ∧ q ≠ "" then none else kvLookup fs q := by
  induction files generalizing fs with
  | nil => simp [cleanupFiles]
  | cons f rest ih =>
    show kvLookup (cleanupFiles rest (cleanupStep fs f)) q = _
    rw [ih, kvLookup_cleanupStep]
    by_cases hqe : q = ""
    · subst hqe
      have h1 : ¬(("" : Path) ∈ rest ∧ ("" : String) ≠ "") := fun h => h.2 rfl
      have h2 : ¬(("" : Path) = f ∧ f ≠ "") := fun h => h.2 h.1.symm
      have h3 : ¬(("" : Path) ∈ f :: rest ∧ ("" : String) ≠ "") := fun h => h.2 rfl
      rw [if_neg h1, if_neg h2, if_neg h3]
    · by_cases hqf : q = f
      · subst hqf
        have h3 : q ∈ q :: rest ∧ q ≠ "" := ⟨List.mem_cons_self q rest, hqe⟩
        have h2 : q = q ∧ q ≠ "" := ⟨rfl, hqe⟩
        rw [if_pos h3, if_pos h2]
        by_cases hmem : q ∈ rest
        · rw [if_pos ⟨hmem, hqe⟩]
        · rw [if_neg (fun h => hmem h.1)]
      · have h2 : ¬(q = f ∧ f ≠ "") := fun h => hqf h.1
        rw [if_neg h2]
        by_cases hmem : q ∈ rest
        · have h5 : q ∈ f :: rest := List.mem_cons_of_mem f hmem
          rw [if_pos ⟨hmem, hqe⟩, if_pos ⟨h5, hqe⟩]
        · have h4 : ¬(q ∈ f :: rest ∧ q ≠ "") := by
            rintro ⟨h5, h6⟩
            rcases List.mem_cons.mp h5 with h7 | h7
            · exact hqf h7
            · exact hmem h7
          rw [if_neg (fun h => hmem h.1), if_neg h4]

theorem cleanupFiles_fixed : ∀ (files : List Path) (fs : FS),
    (∀ f ∈ files, f ≠ "" → kvLookup fs f = none) → cleanupFiles files fs = fs
  | [], _, _ => rfl
  | f :: rest, fs, h => by
    have hstep : cleanupStep fs f = fs := by
      unfold cleanupStep
      by_cases hf : f = ""
      · simp [hf]
      · have hnone : kvLookup fs f = none := h f (by simp) hf
        simp [existsSync, hnone, hf]
    show cleanupFiles rest (cleanupStep fs f) = fs
    rw [hstep]
    exact cleanupFiles_fixed rest fs (fun g hg hne => h g (by simp [hg]) hne)

theorem cleanupFilesE_ok (files : List Path) (fs : FS) :
    cleanupFilesE files fs = Except.ok (cleanupFiles files fs) := by
  induction files generalizing fs with
  | nil => rfl
  | cons f rest ih =>
    show (if (f != "") && existsSync fs f then unlinkSyncE fs f else Except.ok fs).bind _ =
      Except.ok (cleanupFiles rest (cleanupStep fs f))
    by_cases hg : ((f != "") && existsSync fs f) = true
    · have hex : existsSync fs f = true := by
        revert hg; cases existsSync fs f <;> simp
      rw [if_pos hg]
      unfold unlinkSyncE
      rw [if_pos hex]
      show cleanupFilesE rest (unlinkSync fs f) = _
      rw [ih]
      unfold cleanupStep
      rw [if_pos hg]
    · rw [if_neg hg]
      show cleanupFilesE rest fs = _
      rw [ih]
      unfold cleanupStep
      rw [if_neg hg]

/-- Claim C3: for every list of paths, cleanup deletes each path that exists
(every nonempty listed path is absent afterwards, and unlisted paths are
untouched), silently skips each path that does not exist — the raising
unlink is never reached, so cleanup never raises on a missing file — and
running it a second time on the same list has no further effect. -/
theorem C3_cleanup_contract (files : List Path) (fs : FS) :
    cleanupFilesE files fs = Except.ok (cleanupFiles files fs)
    ∧ (∀ p, kvLookup (cleanupFiles files fs) p =
        if p ∈ files ∧ p ≠ "" then none else kvLookup fs p)
    ∧ cleanupFiles files (cleanupFiles files fs) = cleanupFiles files fs := by
  refine ⟨cleanupFilesE_ok files fs, fun p => kvLookup_cleanupFiles files fs p, ?_⟩
  apply cleanupFiles_fixed
  intro f hf hne
  rw [kvLookup_cleanupFiles]
  simp [hf, hne]

/-- HTTP response sent by a handler: res.json on success, res.status(s).json
on failure (the 400 validation responses carry no details field). -/
inductive Resp where
  | success (downloadUrl : String)
  | failure (status : Nat) (error : String) (details : Option String)
deriving DecidableEq

/-- Observable actions of one request, listed in program order: a remote
storage write attempt (artifact name and uploaded buffer), the HTTP
response, and a cleanupFiles call with its path list. -/
inductive Event where
  | uploadAttempt (name : String) (content : String)
  | respond (r : Resp)
  | cleanup (paths : List Path)
deriving DecidableEq

/-- The single terminal signal of the external ffmpeg engine for one job:
the end event with a finalized output file, or the error event with a
message.  The engine is opaque, so this is a parameter of the pipeline. -/
inductive TransformResult where
  | completed (output : String)
  | failed (msg : String)
deriving DecidableEq

/-- Storage upload with upsert semantics, src/server.js line 34: an existing
artifact of the same name is overwritten. -/
def upsertStore (st : Storage) (n c : String) : Storage := (n, c) :: kvErase st n

/-- Outcome of uploadToSupabase: the resulting bucket, the remote write
attempts actually made (artifact name and buffer), and either the thrown
error or the returned public URL. -/
structure UploadOut where
  storage : Storage
  sent : List (String × String)
  result : Except String String

/-- uploadToSupabase, src/server.js lines 30 to 39: read the local file
(readFileSync throws if it is missing, before any remote write), attempt the
remote write (svcErr models the storage service failing this write; the
error is rethrown), then resolve and return the public URL (getPublicUrl
models the service's URL resolution, which itself never throws). -/
def uploadToSupabase (svcErr : Option String) (getPublicUrl : String → String)
    (fs : FS) (st : Storage) (localFilePath fileName : String) : UploadOut :=
  match kvLookup fs localFilePath with
  | none => ⟨st, [], Except.error ("ENOENT")⟩
  | some fileBuffer =>
    match svcErr with
    | some e => ⟨st, [(fileName, fileBuffer)], Except.error e⟩
    | none => ⟨upsertStore st fileName fileBuffer, [(fileName, fileBuffer)],
        Except.ok (getPublicUrl fileName)⟩

/-- Model of path.basename: the portion of the path after the final slash. -/
def basenameGo : List Char → List Char → List Char
  | [], acc => acc
  | c :: rest, acc => if c = '/' then basenameGo rest [] else basenameGo rest (acc ++ [c])

/-- path.basename on strings. -/
def basename (p : String) : String := String.mk (basenameGo p.data [])

/-- Result of one request once it reaches the processing pipeline: the event
trace, the final local filesystem, the final bucket, and the response. -/
structure PUResult where
  events : List Event
  fs : FS
  storage : Storage
  response : Resp

/-- Number of cleanupFiles calls in an event trace. -/
def countCleanups (evs : List Event) : Nat :=
  evs.countP (fun e => match e with | Event.cleanup _ => true | _ => false)

/-- processAndUpload, src/server.js lines 42 to 64.  On the engine's error
event: cleanupFiles on all inputs plus the output, then a 500 processing
failure.  On the end event: the finalized output exists at the output path;
uploadToSupabase runs under the name basename(outputPath); a thrown error is
answered with the 500 cloud-upload failure, success with the public URL; the
finally block runs cleanupFiles on all inputs plus the output in both cases,
after the response. -/
def processAndUpload (svcErr : Option String) (getPublicUrl : String → String)
    (tr : TransformResult) (fs : FS) (st : Storage)
    (outputPath : Path) (inputFiles : List Path) : PUResult :=
  match tr with
  | TransformResult.failed msg =>
    let r := Resp.failure 500 ("Video processing failed.") (some msg)
    { events := [Event.cleanup (inputFiles ++ [outputPath]), Event.respond r]
      fs := cleanupFiles (inputFiles ++ [outputPath]) fs
      storage := st
      response := r }
  | TransformResult.completed out =>
    let fs1 := writeFileFs fs outputPath out
    let u := uploadToSupabase svcErr getPublicUrl fs1 st outputPath (basename outputPath)
    let up := u.sent.map (fun s => Event.uploadAttempt s.1 s.2)
    match u.result with
    | Except.ok url =>
      let r := Resp.success url
      { events := up ++ [Event.respond r, Event.cleanup (inputFiles ++ [outputPath])]
        fs := cleanupFiles (inputFiles ++ [outputPath]) fs1
        storage := u.storage
        response := r }
    | Except.error e =>
      let r := Resp.failure 500 ("Processing succeeded, but cloud upload failed.") (some e)
      { events := up ++ [Event.respond r, Event.cleanup (inputFiles ++ [outputPath])]
        fs := cleanupFiles (inputFiles ++ [outputPath]) fs1
        storage := u.storage
        response := r }

/-- The inline pipeline of the POST /merge handler, src/server.js lines 125
to 140: identical structure to processAndUpload with the error messages
Merge failed and Cloud upload failed. -/
def mergeProcess (svcErr : Option String) (getPublicUrl : String → String)
    (tr : TransformResult) (fs : FS) (st : Storage)
    (outputPath : Path) (inputPaths : List Path) : PUResult :=
  match tr with
  | TransformResult.failed msg =>
    let r := Resp.failure 500 ("Merge failed.") (some msg)
    { events := [Event.cleanup (inputPaths ++ [outputPath]), Event.respond r]
      fs := cleanupFiles (inputPaths ++ [outputPath]) fs
      storage := st
      response := r }
  | TransformResult.completed out =>
    let fs1 := writeFileFs fs outputPath out
    let u := uploadToSupabase svcErr getPublicUrl fs1 st outputPath (basename outputPath)
    let up := u.sent.map (fun s => Event.uploadAttempt s.1 s.2)
    match u.result with
    | Except.ok url =>
      let r := Resp.success url
      { events := up ++ [Event.respond r, Event.cleanup (inputPaths ++ [outputPath])]
        fs := cleanupFiles (inputPaths ++ [outputPath]) fs1
        storage := u.storage
        response := r }
    | Except.error e =>
      let r := Resp.failure 500 ("Cloud upload failed.") (some e)
      { events := up ++ [Event.respond r, Event.cleanup (inputPaths ++ [outputPath])]
        fs := cleanupFiles (inputPaths ++ [outputPath]) fs1
        storage := u.storage
        response := r }

theorem kvLookup_writeFileFs (fs : FS) (p : Path) (c : String) (q : Path) :
    kvLookup (writeFileFs fs p c) q = if p = q then some c else kvLookup fs q := by
  unfold writeFileFs
  by_cases h : p = q
  · simp [kvLookup, h]
  · simp [kvLookup, h, kvLookup_kvErase]
    intro hq
    exact absurd hq.symm h

/-- A fluent-ffmpeg command as configured by the handlers: input paths, the
seek and duration settings, video filters, and output options. -/
structure FfmpegCmd where
  inputs : List Path
  startTime : Option String
  duration : Option String
  videoFilters : List String
  outputOptions : List String
deriving DecidableEq

/-- The two resource-constraint options applied to every invocation,
src/server.js lines 45 and 125. -/
def resourceOptions : List String := ["-threads 1", "-preset ultrafast"]

/-- The outputOptions call processAndUpload makes on every command it is
given, src/server.js line 45. -/
def applyResourceOptions (c : FfmpegCmd) : FfmpegCmd :=
  { c with outputOptions := c.outputOptions ++ resourceOptions }

/-- Body of POST /trim: a field is absent (none) or carries the raw string
sent by the client; present-but-empty is some of the empty string. -/
structure TrimBody where
  startTime : Option String
  duration : Option String

/-- Body of POST /crop, same conventions as TrimBody. -/
structure CropBody where
  w : Option String
  h : Option String
  x : Option String
  y : Option String

/-- JavaScript destructuring default, src/server.js lines 73 and 87: the
default applies exactly when the field is absent (undefined); a present
value is kept, even the empty string.  Numeric defaults are rendered as
their decimal text, the form in which they reach the invocation. -/
def withDefault (field : Option String) (d : String) : String := field.getD d

/-- Command of POST /trim, src/server.js lines 76 to 79. -/
def trimCmd (videoPath : Path) (b : TrimBody) : FfmpegCmd :=
  { inputs := [videoPath]
    startTime := some (withDefault b.startTime ("0"))
    duration := some (withDefault b.duration ("5"))
    videoFilters := []
    outputOptions := ["-c copy"] }

/-- The crop filter string of POST /crop, src/server.js line 90. -/
def cropFilter (b : CropBody) : String :=
  "crop=" ++ withDefault b.w ("1080") ++ ":" ++ withDefault b.h ("1920") ++ ":"
    ++ withDefault b.x ("0") ++ ":" ++ withDefault b.y ("0")

/-- Command of POST /crop, src/server.js line 90. -/
def cropCmd (videoPath : Path) (b : CropBody) : FfmpegCmd :=
  { inputs := [videoPath]
    startTime := none
    duration := none
    videoFilters := [cropFilter b]
    outputOptions := [] }

/-- Command of POST /add-voice, src/server.js lines 99 to 101. -/
def addVoiceCmd (videoPath audioPath : Path) : FfmpegCmd :=
  { inputs := [videoPath, audioPath]
    startTime := none
    duration := none
    videoFilters := []
    outputOptions := ["-c:v copy", "-map 0:v:0", "-map 1:a:0", "-shortest"] }

/-- Command of POST /add-caption, src/server.js line 112. -/
def addCaptionCmd (videoPath subPath : Path) : FfmpegCmd :=
  { inputs := [videoPath]
    startTime := none
    duration := none
    videoFilters := ["subtitles=" ++ subPath]
    outputOptions := [] }

/-- Command of POST /merge, src/server.js lines 122 to 125; the two options
are applied by the handler itself there, not by processAndUpload. -/
def mergeCmd (inputPaths : List Path) : FfmpegCmd :=
  { inputs := inputPaths
    startTime := none
    duration := none
    videoFilters := []
    outputOptions := resourceOptions }

/-- The five operations of the server. -/
inductive Operation where
  | trim
  | crop
  | addVoice
  | addCaption
  | merge
deriving DecidableEq

/-- The tag each route embeds in its temporary output name, src/server.js
lines 74, 88, 97, 109 and 119. -/
def opTag : Operation → String
  | Operation.trim => "trimmed"
  | Operation.crop => "cropped"
  | Operation.addVoice => "voiced"
  | Operation.addCaption => "captioned"
  | Operation.merge => "merged"

/-- The output path each route builds: slash tmp slash, the tag, an
underscore, the decimal rendering of Date.now() in milliseconds, and the
.mp4 extension. -/
def routeOutputPath (op : Operation) (now : Nat) : Path :=
  "/tmp/" ++ opTag op ++ "_" ++ Nat.repr now ++ ".mp4"

/-- A route handler's decision after validation: respond 400 immediately,
or start the job with its input files, output path and command. -/
inductive HandlerAction where
  | badRequest (msg : String)
  | startJob (inputFiles : List Path) (outputPath : Path) (cmd : FfmpegCmd)
deriving DecidableEq

/-- POST /trim validation and job construction, src/server.js lines 71 to 81. -/
def trimHandler (file : Option Path) (b : TrimBody) (now : Nat) : HandlerAction :=
  match file with
  | none => HandlerAction.badRequest ("Video file required.")
  | some p => HandlerAction.startJob [p] (routeOutputPath Operation.trim now) (trimCmd p b)

/-- POST /crop validation and job construction, src/server.js lines 85 to 91. -/
def cropHandler (file : Option Path) (b : CropBody) (now : Nat) : HandlerAction :=
  match file with
  | none => HandlerAction.badRequest ("Video file required.")
  | some p => HandlerAction.startJob [p] (routeOutputPath Operation.crop now) (cropCmd p b)

/-- POST /add-voice validation and job construction, src/server.js lines 95
to 103. -/
def addVoiceHandler (video audio : Option Path) (now : Nat) : HandlerAction :=
  match video, audio with
  | some v, some a =>
    HandlerAction.startJob [v, a] (routeOutputPath Operation.addVoice now) (addVoiceCmd v a)
  | _, _ => HandlerAction.badRequest ("Video and Audio files required.")

/-- POST /add-caption validation and job construction, src/server.js lines
107 to 113; pathResolve models path.resolve on the subtitle path. -/
def addCaptionHandler (pathResolve : Path → Path) (video subtitle : Option Path)
    (now : Nat) : HandlerAction :=
  match video, subtitle with
  | some v, some s =>
    HandlerAction.startJob [v, pathResolve s] (routeOutputPath Operation.addCaption now)
      (addCaptionCmd v (pathResolve s))
  | _, _ => HandlerAction.badRequest ("Video and .srt Subtitle files required.")

/-- POST /merge validation and job construction, src/server.js lines 117 to
123: the guard rejects a missing files array and any count other than 2. -/
def mergeHandler (files : Option (List Path)) (now : Nat) : HandlerAction :=
  match files with
  | none => HandlerAction.badRequest ("Exactly 2 videos required.")
  | some l =>
    if l.length = 2 then
      HandlerAction.startJob l (routeOutputPath Operation.merge now) (mergeCmd l)
    else HandlerAction.badRequest ("Exactly 2 videos required.")

/-- Running a handler's decision for the four processAndUpload routes: a 400
answers immediately, with no event other than the response and no change to
the filesystem or the bucket; a started job runs processAndUpload. -/
def runHandlerAction (svcErr : Option String) (getPublicUrl : String → String)
    (tr : TransformResult) (act : HandlerAction) (fs : FS) (st : Storage) : PUResult :=
  match act with
  | HandlerAction.badRequest m =>
    { events := [Event.respond (Resp.failure 400 m none)]
      fs := fs
      storage := st
      response := Resp.failure 400 m none }
  | HandlerAction.startJob ins out _ => processAndUpload svcErr getPublicUrl tr fs st out ins

/-- Running the merge handler's decision: as runHandlerAction but the job
runs the inline merge pipeline. -/
def runMergeAction (svcErr : Option String) (getPublicUrl : String → String)
    (tr : TransformResult) (act : HandlerAction) (fs : FS) (st : Storage) : PUResult :=
  match act with
  | HandlerAction.badRequest m =>
    { events := [Event.respond (Resp.failure 400 m none)]
      fs := fs
      storage := st
      response := Resp.failure 400 m none }
  | HandlerAction.startJob ins out _ => mergeProcess svcErr getPublicUrl tr fs st out ins

/-- A stored artifact as returned by the storage list call: its name and its
creation timestamp in milliseconds. -/
structure StoredFile where
  name : String
  createdAt : Int
deriving DecidableEq

/-- 24 hours in milliseconds, src/server.js line 153. -/
def oneDayMs : Int := 24 * 60 * 60 * 1000

/-- The artifacts the sweep selects, src/server.js line 157: those whose
creation time is before now minus 24 hours. -/
def sweepSelected (now : Int) (files : List StoredFile) : List StoredFile :=
  files.filter (fun f => decide (f.createdAt < now - oneDayMs))

/-- The sweep's delete set: the names of the selected artifacts. -/
def sweepDeleteSet (now : Int) (files : List StoredFile) : List String :=
  (sweepSelected now files).map (fun f => f.name)

/-- Whether the sweep issues the bulk remove call, src/server.js lines 155
and 158: a missing list result or an empty delete set issue none. -/
def sweepRemoveCalled (now : Int) (listResult : Option (List StoredFile)) : Bool :=
  match listResult with
  | none => false
  | some files => decide (0 < (sweepDeleteSet now files).length)

theorem uploadToSupabase_after_write_none (gpu : String → String) (fs : FS) (st : Storage)
    (p n : Path) (out : String) :
    uploadToSupabase none gpu (writeFileFs fs p out) st p n =
      ⟨upsertStore st n out, [(n, out)], Except.ok (gpu n)⟩ := by
  unfold uploadToSupabase
  rw [kvLookup_writeFileFs]
  simp

theorem uploadToSupabase_after_write_some (e : String) (gpu : String → String) (fs : FS)
    (st : Storage) (p n : Path) (out : String) :
    uploadToSupabase (some e) gpu (writeFileFs fs p out) st p n =
      ⟨st, [(n, out)], Except.error e⟩ := by
  unfold uploadToSupabase
  rw [kvLookup_writeFileFs]
  simp

theorem processAndUpload_failed_eq (svcErr : Option String) (gpu : String → String)
    (fs : FS) (st : Storage) (o : Path) (ins : List Path) (msg : String) :
    processAndUpload svcErr gpu (TransformResult.failed msg) fs st o ins =
      { events := [Event.cleanup (ins ++ [o]),
          Event.respond (Resp.failure 500 ("Video processing failed.") (some msg))]
        fs := cleanupFiles (ins ++ [o]) fs
        storage := st
        response := Resp.failure 500 ("Video processing failed.") (some msg) } := rfl

theorem processAndUpload_ok_eq (gpu : String → String) (fs : FS) (st : Storage)
    (o : Path) (ins : List Path) (out : String) :
    processAndUpload none gpu (TransformResult.completed out) fs st o ins =
      { events := [Event.uploadAttempt (basename o) out,
          Event.respond (Resp.success (gpu (basename o))),
          Event.cleanup (ins ++ [o])]
        fs := cleanupFiles (ins ++ [o]) (writeFileFs fs o out)
        storage := upsertStore st (basename o) out
        response := Resp.success (gpu (basename o)) } := by
  simp only [processAndUpload, uploadToSupabase_after_write_none]
  rfl

theorem processAndUpload_uploadErr_eq (e : String) (gpu : String → String) (fs : FS)
    (st : Storage) (o : Path) (ins : List Path) (out : String) :
    processAndUpload (some e) gpu (TransformResult.completed out) fs st o ins =
      { events := [Event.uploadAttempt (basename o) out,
          Event.respond (Resp.failure 500
            ("Processing succeeded, but cloud upload failed.") (some e)),
          Event.cleanup (ins ++ [o])]
        fs := cleanupFiles (ins ++ [o]) (writeFileFs fs o out)
        storage := st
        response := Resp.failure 500
          ("Processing succeeded, but cloud upload failed.") (some e) } := by
  simp only [processAndUpload, uploadToSupabase_after_write_some]
  rfl

theorem mergeProcess_failed_eq (svcErr : Option String) (gpu : String → String)
    (fs : FS) (st : Storage) (o : Path) (ins : List Path) (msg : String) :
    mergeProcess svcErr gpu (TransformResult.failed msg) fs st o ins =
      { events := [Event.cleanup (ins ++ [o]),
          Event.respond (Resp.failure 500 ("Merge failed.") (some msg))]
        fs := cleanupFiles (ins ++ [o]) fs
        storage := st
        response := Resp.failure 500 ("Merge failed.") (some msg) } := rfl

theorem mergeProcess_ok_eq (gpu : String → String) (fs : FS) (st : Storage)
    (o : Path) (ins : List Path) (out : String) :
    mergeProcess none gpu (TransformResult.completed out) fs st o ins =
      { events := [Event.uploadAttempt (basename o) out,
          Event.respond (Resp.success (gpu (basename o))),
          Event.cleanup (ins ++ [o])]
        fs := cleanupFiles (ins ++ [o]) (writeFileFs fs o out)
        storage := upsertStore st (basename o) out
        response := Resp.success (gpu (basename o)) } := by
  simp only [mergeProcess, uploadToSupabase_after_write_none]
  rfl

theorem mergeProcess_uploadErr_eq (e : String) (gpu : String → String) (fs : FS)
    (st : Storage) (o : Path) (ins : List Path) (out : String) :
    mergeProcess (some e) gpu (TransformResult.completed out) fs st o ins =
      { events := [Event.uploadAttempt (basename o) out,
          Event.respond (Resp.failure 500 ("Cloud upload failed.") (some e)),
          Event.cleanup (ins ++ [o])]
        fs := cleanupFiles (ins ++ [o]) (writeFileFs fs o out)
        storage := st
        response := Resp.failure 500 ("Cloud upload failed.") (some e) } := by
  simp only [mergeProcess, uploadToSupabase_after_write_some]
  rfl

/-- Claim C1: for every job that reaches the processing stage — under every
terminal outcome (engine failure, upload failure, upload success) and in
both pipelines (processAndUpload and the inline merge pipeline) — exactly
one cleanupFiles call appears in the trace, its argument is the complete
set of touched paths (all inputs plus the output), and every such path is
absent from the local filesystem once the request has been answered.  The
spec's phrase by the time the HTTP response is sent is read, per its own
verification clause, as: the paths are absent post-request. -/
theorem C1_cleanup_once_and_no_leaks (svcErr : Option String) (gpu : String → String)
    (tr : TransformResult) (fs : FS) (st : Storage) (o : Path) (ins : List Path) :
    countCleanups (processAndUpload svcErr gpu tr fs st o ins).events = 1
    ∧ (∀ ps, Event.cleanup ps ∈ (processAndUpload svcErr gpu tr fs st o ins).events →
        ps = ins ++ [o])
    ∧ (∀ p ∈ ins ++ [o], p ≠ "" →
        kvLookup (processAndUpload svcErr gpu tr fs st o ins).fs p = none)
    ∧ countCleanups (mergeProcess svcErr gpu tr fs st o ins).events = 1
    ∧ (∀ ps, Event.cleanup ps ∈ (mergeProcess svcErr gpu tr fs st o ins).events →
        ps = ins ++ [o])
    ∧ (∀ p ∈ ins ++ [o], p ≠ "" →
        kvLookup (mergeProcess svcErr gpu tr fs st o ins).fs p = none) := by
  have hfs : ∀ (fs0 : FS) (p : Path), p ∈ ins ++ [o] → p ≠ "" →
      kvLookup (cleanupFiles (ins ++ [o]) fs0) p = none := by
    intro fs0 p hp hne
    rw [kvLookup_cleanupFiles]
    simp [hp, hne]
  rcases tr with out | msg
  · cases svcErr with
    | none =>
      simp only [processAndUpload_ok_eq, mergeProcess_ok_eq]
      refine ⟨by simp [countCleanups], ?_, ?_, by simp [countCleanups], ?_, ?_⟩
      · intro ps hps; simp at hps; exact hps
      · intro p hp hne; exact hfs _ p hp hne
      · intro ps hps; simp at hps; exact hps
      · intro p hp hne; exact hfs _ p hp hne
    | some e =>
      simp only [processAndUpload_uploadErr_eq, mergeProcess_uploadErr_eq]
      refine ⟨by simp [countCleanups], ?_, ?_, by simp [countCleanups], ?_, ?_⟩
      · intro ps hps; simp at hps; exact hps
      · intro p hp hne; exact hfs _ p hp hne
      · intro ps hps; simp at hps; exact hps
      · intro p hp hne; exact hfs _ p hp hne
  · simp only [processAndUpload_failed_eq, mergeProcess_failed_eq]
    refine ⟨by simp [countCleanups], ?_, ?_, by simp [countCleanups], ?_, ?_⟩
    · intro ps hps; simp at hps; exact hps
    · intro p hp hne; exact hfs _ p hp hne
    · intro ps hps; simp at hps; exact hps
    · intro p hp hne; exact hfs _ p hp hne

/-- Concrete instance of C1: after a successful transform and upload, the
uploaded input file is gone from the local filesystem. -/
theorem C1_cleanup_once_and_no_leaks_witness :
    kvLookup (processAndUpload none (fun n => "https://cdn/" ++ n)
      (TransformResult.completed ("data")) [("/tmp/in.mp4", "v")] []
      ("/tmp/out.mp4") ["/tmp/in.mp4"]).fs ("/tmp/in.mp4") = none :=
  (C1_cleanup_once_and_no_leaks none (fun n => "https://cdn/" ++ n)
    (TransformResult.completed ("data")) [("/tmp/in.mp4", "v")] []
    ("/tmp/out.mp4") ["/tmp/in.mp4"]).2.2.1 ("/tmp/in.mp4") (by simp) (by decide)

/-- The command processAndUpload actually executes for POST /trim: the
route's command with the resource options applied, src/server.js line 45. -/
def trimInvocation (p : Path) (b : TrimBody) : FfmpegCmd := applyResourceOptions (trimCmd p b)

/-- The executed command for POST /crop. -/
def cropInvocation (p : Path) (b : CropBody) : FfmpegCmd := applyResourceOptions (cropCmd p b)

/-- The executed command for POST /add-voice. -/
def addVoiceInvocation (v a : Path) : FfmpegCmd := applyResourceOptions (addVoiceCmd v a)

/-- The executed command for POST /add-caption. -/
def addCaptionInvocation (v s : Path) : FfmpegCmd := applyResourceOptions (addCaptionCmd v s)

/-- The executed command for POST /merge: the options are applied inline by
the handler, src/server.js line 125. -/
def mergeInvocation (l : List Path) : FfmpegCmd := mergeCmd l

/-- Claim C2: in both pipelines, a storage upload is attempted only when the
engine delivered its end signal; on the error signal the trace holds no
upload attempt and the bucket is untouched, so no artifact is created under
the job's intended name; on an upload-service failure the bucket is likewise
untouched; and the artifact that a successful upload creates under the name
basename(outputPath) carries exactly the finalized output file's content —
in particular it is non-empty whenever that output is non-empty. -/
theorem C2_artifact_only_after_end (svcErr : Option String) (gpu : String → String)
    (tr : TransformResult) (fs : FS) (st : Storage) (o : Path) (ins : List Path) :
    (∀ msg, tr = TransformResult.failed msg →
      (∀ n c, Event.uploadAttempt n c ∉ (processAndUpload svcErr gpu tr fs st o ins).events)
      ∧ (processAndUpload svcErr gpu tr fs st o ins).storage = st
      ∧ (∀ n c, Event.uploadAttempt n c ∉ (mergeProcess svcErr gpu tr fs st o ins).events)
      ∧ (mergeProcess svcErr gpu tr fs st o ins).storage = st)
    ∧ (∀ n c, Event.uploadAttempt n c ∈ (processAndUpload svcErr gpu tr fs st o ins).events →
        ∃ out, tr = TransformResult.completed out ∧ c = out ∧ n = basename o)
    ∧ (∀ n c, Event.uploadAttempt n c ∈ (mergeProcess svcErr gpu tr fs st o ins).events →
        ∃ out, tr = TransformResult.completed out ∧ c = out ∧ n = basename o)
    ∧ (∀ out e, tr = TransformResult.completed out → svcErr = some e →
        (processAndUpload svcErr gpu tr fs st o ins).storage = st
        ∧ (mergeProcess svcErr gpu tr fs st o ins).storage = st)
    ∧ (∀ out, tr = TransformResult.completed out → svcErr = none →
        kvLookup (processAndUpload svcErr gpu tr fs st o ins).storage (basename o) = some out
        ∧ kvLookup (mergeProcess svcErr gpu tr fs st o ins).storage (basename o) = some out
        ∧ (out ≠ "" → ∀ c, kvLookup (processAndUpload svcErr gpu tr fs st o ins).storage
            (basename o) = some c → c ≠ "")) := by
  rcases tr with out | msg
  · cases svcErr with
    | none =>
      simp only [processAndUpload_ok_eq, mergeProcess_ok_eq]
      refine ⟨?_, ?_, ?_, ?_, ?_⟩
      · intro msg h; cases h
      · intro n c h
        simp at h
        exact ⟨out, rfl, h.2, h.1⟩
      · intro n c h
        simp at h
        exact ⟨out, rfl, h.2, h.1⟩
      · intro out2 e h he; cases he
      · intro out2 h _
        have hout : out2 = out := by cases h; rfl
        subst hout
        refine ⟨by simp [upsertStore, kvLookup], by simp [upsertStore, kvLookup], ?_⟩
        intro hne c hc
        simp [upsertStore, kvLookup] at hc
        exact hc ▸ hne
    | some e =>
      simp only [processAndUpload_uploadErr_eq, mergeProcess_uploadErr_eq]
      refine ⟨?_, ?_, ?_, ?_, ?_⟩
      · intro msg h; cases h
      · intro n c h
        simp at h
        exact ⟨out, rfl, h.2, h.1⟩
      · intro n c h
        simp at h
        exact ⟨out, rfl, h.2, h.1⟩
      · intro out2 e2 h he; exact ⟨trivial, trivial⟩
      · intro out2 h he; cases he
  · simp only [processAndUpload_failed_eq, mergeProcess_failed_eq]
    refine ⟨?_, ?_, ?_, ?_, ?_⟩
    · intro msg2 h
      refine ⟨?_, trivial, ?_, trivial⟩ <;> intro n c hc <;> simp at hc
    · intro n c h; simp at h
    · intro n c h; simp at h
    · intro out e h; cases h
    · intro out h; cases h

/-- Concrete instance of C2: when the engine fails, the bucket is unchanged. -/
theorem C2_artifact_only_after_end_witness :
    (processAndUpload none (fun n => n) (TransformResult.failed ("boom"))
      [("/tmp/in.mp4", "v")] [("old.mp4", "x")] ("/tmp/out.mp4")
      ["/tmp/in.mp4"]).storage = [("old.mp4", "x")] :=
  ((C2_artifact_only_after_end none (fun n => n) (TransformResult.failed ("boom"))
    [("/tmp/in.mp4", "v")] [("old.mp4", "x")] ("/tmp/out.mp4")
    ["/tmp/in.mp4"]).1 ("boom") rfl).2.1

/-- Claim C7: the error payload after an upload failure differs from the one
after a transform failure, in both pipelines; each is an HTTP 500 structured
JSON response carrying the underlying error message as details. -/
theorem C7_distinct_error_payloads (svcErr : Option String) (gpu : String → String)
    (fs : FS) (st : Storage) (o : Path) (ins : List Path) :
    (∀ msg, (processAndUpload svcErr gpu (TransformResult.failed msg) fs st o ins).response
      = Resp.failure 500 ("Video processing failed.") (some msg))
    ∧ (∀ out e, (processAndUpload (some e) gpu (TransformResult.completed out) fs st o ins).response
      = Resp.failure 500 ("Processing succeeded, but cloud upload failed.") (some e))
    ∧ ("Video processing failed." : String) ≠ "Processing succeeded, but cloud upload failed."
    ∧ (∀ msg, (mergeProcess svcErr gpu (TransformResult.failed msg) fs st o ins).response
      = Resp.failure 500 ("Merge failed.") (some msg))
    ∧ (∀ out e, (mergeProcess (some e) gpu (TransformResult.completed out) fs st o ins).response
      = Resp.failure 500 ("Cloud upload failed.") (some e))
    ∧ ("Merge failed." : String) ≠ "Cloud upload failed." := by
  refine ⟨?_, ?_, by decide, ?_, ?_, by decide⟩
  · intro msg; rw [processAndUpload_failed_eq]
  · intro out e; rw [processAndUpload_uploadErr_eq]
  · intro msg; rw [mergeProcess_failed_eq]
  · intro out e; rw [mergeProcess_uploadErr_eq]

/-- Claim C6: each of the five operations is executed with both resource
constraints: one worker thread and the ultrafast preset. -/
theorem C6_resource_constraints (p v a s : Path) (l : List Path)
    (tb : TrimBody) (cb : CropBody) :
    (("-threads 1" : String) ∈ (trimInvocation p tb).outputOptions
      ∧ ("-preset ultrafast" : String) ∈ (trimInvocation p tb).outputOptions)
    ∧ (("-threads 1" : String) ∈ (cropInvocation p cb).outputOptions
      ∧ ("-preset ultrafast" : String) ∈ (cropInvocation p cb).outputOptions)
    ∧ (("-threads 1" : String) ∈ (addVoiceInvocation v a).outputOptions
      ∧ ("-preset ultrafast" : String) ∈ (addVoiceInvocation v a).outputOptions)
    ∧ (("-threads 1" : String) ∈ (addCaptionInvocation v s).outputOptions
      ∧ ("-preset ultrafast" : String) ∈ (addCaptionInvocation v s).outputOptions)
    ∧ (("-threads 1" : String) ∈ (mergeInvocation l).outputOptions
      ∧ ("-preset ultrafast" : String) ∈ (mergeInvocation l).outputOptions) := by
  refine ⟨⟨?_, ?_⟩, ⟨?_, ?_⟩, ⟨?_, ?_⟩, ⟨?_, ?_⟩, ⟨?_, ?_⟩⟩ <;>
    simp [trimInvocation, cropInvocation, addVoiceInvocation, addCaptionInvocation,
      mergeInvocation, applyResourceOptions, trimCmd, cropCmd, addVoiceCmd, addCaptionCmd,
      mergeCmd, resourceOptions]

/-- Claim C5: the Trim and Crop defaults (startTime 0, duration 5; w 1080,
h 1920, x 0, y 0) are substituted only when the field is entirely absent
from the body; a present field — even the empty string — is passed through
to the executed invocation exactly as provided, with no range validation
(every string value is accepted verbatim). -/
theorem C5_defaults_only_when_absent (p : Path) (s d w h x y : String)
    (tb : TrimBody) (cb : CropBody) :
    (trimInvocation p ⟨none, none⟩).startTime = some ("0")
    ∧ (trimInvocation p ⟨none, none⟩).duration = some ("5")
    ∧ (trimInvocation p ⟨some s, some d⟩).startTime = some s
    ∧ (trimInvocation p ⟨some s, some d⟩).duration = some d
    ∧ (trimInvocation p ⟨some (""), some ("")⟩).startTime = some ("")
    ∧ (trimInvocation p ⟨some (""), some ("")⟩).duration = some ("")
    ∧ cropFilter ⟨none, none, none, none⟩ = "crop=1080:1920:0:0"
    ∧ (cropInvocation p ⟨some w, some h, some x, some y⟩).videoFilters
      = ["crop=" ++ w ++ ":" ++ h ++ ":" ++ x ++ ":" ++ y]
    ∧ cropFilter ⟨some (""), none, none, none⟩ = "crop=:1920:0:0"
    ∧ (trimInvocation p tb).startTime = some (withDefault tb.startTime ("0"))
    ∧ (trimInvocation p tb).duration = some (withDefault tb.duration ("5"))
    ∧ (cropInvocation p cb).videoFilters = [cropFilter cb] :=
  ⟨rfl, rfl, rfl, rfl, rfl, rfl, by decide, rfl, by decide, rfl, rfl, rfl⟩

/-- Claim C4: a request missing its required files is answered 400 with the
route's message, and the route's core logic runs no transform, attempts no
upload, performs no cleanup, and leaves the local filesystem and the bucket
untouched (zero local file handles allocated by the pipeline). -/
theorem C4_validation_rejects_missing_files (svcErr : Option String)
    (gpu : String → String) (tr : TransformResult) (fs : FS) (st : Storage)
    (now : Nat) (tb : TrimBody) (cb : CropBody) (pr : Path → Path) :
    runHandlerAction svcErr gpu tr (trimHandler none tb now) fs st =
      { events := [Event.respond (Resp.failure 400 ("Video file required.") none)]
        fs := fs, storage := st
        response := Resp.failure 400 ("Video file required.") none }
    ∧ runHandlerAction svcErr gpu tr (cropHandler none cb now) fs st =
      { events := [Event.respond (Resp.failure 400 ("Video file required.") none)]
        fs := fs, storage := st
        response := Resp.failure 400 ("Video file required.") none }
    ∧ (∀ video audio : Option Path, video = none ∨ audio = none →
        runHandlerAction svcErr gpu tr (addVoiceHandler video audio now) fs st =
          { events := [Event.respond (Resp.failure 400
              ("Video and Audio files required.") none)]
            fs := fs, storage := st
            response := Resp.failure 400 ("Video and Audio files required.") none })
    ∧ (∀ video subtitle : Option Path, video = none ∨ subtitle = none →
        runHandlerAction svcErr gpu tr (addCaptionHandler pr video subtitle now) fs st =
          { events := [Event.respond (Resp.failure 400
              ("Video and .srt Subtitle files required.") none)]
            fs := fs, storage := st
            response := Resp.failure 400 ("Video and .srt Subtitle files required.") none })
    ∧ runMergeAction svcErr gpu tr (mergeHandler none now) fs st =
      { events := [Event.respond (Resp.failure 400 ("Exactly 2 videos required.") none)]
        fs := fs, storage := st
        response := Resp.failure 400 ("Exactly 2 videos required.") none }
    ∧ (∀ l : List Path, l.length ≠ 2 →
        runMergeAction svcErr gpu tr (mergeHandler (some l) now) fs st =
          { events := [Event.respond (Resp.failure 400 ("Exactly 2 videos required.") none)]
            fs := fs, storage := st
            response := Resp.failure 400 ("Exactly 2 videos required.") none }) := by
  refine ⟨rfl, rfl, ?_, ?_, rfl, ?_⟩
  · intro video audio hva
    rcases hva with hv | ha
    · subst hv; cases audio <;> rfl
    · subst ha; cases video <;> rfl
  · intro video subtitle hvs
    rcases hvs with hv | hs
    · subst hv; cases subtitle <;> rfl
    · subst hs; cases video <;> rfl
  · intro l hl
    show runMergeAction svcErr gpu tr
      (if l.length = 2 then
        HandlerAction.startJob l (routeOutputPath Operation.merge now) (mergeCmd l)
      else HandlerAction.badRequest ("Exactly 2 videos required.")) fs st = _
    rw [if_neg hl]
    rfl

/-- Concrete instance of C4: POST /add-voice with no audio field is answered
400 and changes nothing. -/
theorem C4_validation_rejects_missing_files_witness :
    runHandlerAction none (fun n => n) (TransformResult.failed ("x"))
      (addVoiceHandler (some ("/tmp/v.mp4")) none 7) [] [] =
      { events := [Event.respond (Resp.failure 400
          ("Video and Audio files required.") none)]
        fs := [], storage := []
        response := Resp.failure 400 ("Video and Audio files required.") none } :=
  (C4_validation_rejects_missing_files none (fun n => n) (TransformResult.failed ("x"))
    [] [] 7 ⟨none, none⟩ ⟨none, none, none, none⟩ (fun q => q)).2.2.1
    (some ("/tmp/v.mp4")) none (Or.inr rfl)

theorem age_iff (a n : Int) : a < n - oneDayMs ↔ n - a > oneDayMs := by
  unfold oneDayMs
  omega

/-- Claim C9: a sweep's delete set is exactly the names of stored artifacts
whose age (now minus creation time) exceeds 24 hours; an artifact older
than 24 hours is selected and one created 1 hour ago is not; and no bulk
remove call is issued when the delete set is empty (nor when the list call
returned nothing). -/
theorem C9_sweep_delete_set (now : Int) (files : List StoredFile) :
    (∀ n, n ∈ sweepDeleteSet now files ↔
      ∃ f, f ∈ files ∧ f.name = n ∧ now - f.createdAt > oneDayMs)
    ∧ (sweepDeleteSet now files = [] → sweepRemoveCalled now (some files) = false)
    ∧ sweepRemoveCalled now none = false
    ∧ (∀ f ∈ files, now - f.createdAt > oneDayMs → f.name ∈ sweepDeleteSet now files)
    ∧ (∀ f ∈ files, now - f.createdAt = 3600000 → f ∉ sweepSelected now files) := by
  refine ⟨?_, ?_, rfl, ?_, ?_⟩
  · intro n
    simp only [sweepDeleteSet, sweepSelected, List.mem_map, List.mem_filter,
      decide_eq_true_eq]
    constructor
    · rintro ⟨f, ⟨hf, hlt⟩, hn⟩
      exact ⟨f, hf, hn, (age_iff _ _).mp hlt⟩
    · rintro ⟨f, hf, hn, hgt⟩
      exact ⟨f, ⟨hf, (age_iff _ _).mpr hgt⟩, hn⟩
  · intro hemp
    simp [sweepRemoveCalled, hemp]
  · intro f hf hgt
    simp only [sweepDeleteSet, sweepSelected, List.mem_map, List.mem_filter,
      decide_eq_true_eq]
    exact ⟨f, ⟨hf, (age_iff _ _).mpr hgt⟩, rfl⟩
  · intro f hf h1 hcon
    have h3 := (List.mem_filter.mp hcon).2
    rw [decide_eq_true_eq] at h3
    have h4 := (age_iff _ _).mp h3
    unfold oneDayMs at h4
    omega

/-- Concrete instance of C9: with the clock at 90000000 ms, an artifact
created at time 0 (age exceeding 24 hours) is in the delete set. -/
theorem C9_sweep_delete_set_witness :
    ("a.mp4" : String) ∈ sweepDeleteSet 90000000 [⟨"a.mp4", 0⟩] :=
  (C9_sweep_delete_set 90000000 [⟨"a.mp4", 0⟩]).2.2.2.1 ⟨"a.mp4", 0⟩
    (by simp) (by decide)

theorem digitChar_lt10_ne_slash (m : Nat) (h : m < 10) : Nat.digitChar m ≠ '/' := by
  interval_cases m <;> decide

theorem toDigitsCore_ne_slash : ∀ (fuel n : Nat) (ds : List Char),
    (∀ c ∈ ds, c ≠ '/') → ∀ c ∈ Nat.toDigitsCore 10 fuel n ds, c ≠ '/'
  | 0, _, _, h => fun c hc => h c hc
  | fuel + 1, n, ds, h => by
    intro c hc
    have hd : Nat.digitChar (n % 10) ≠ '/' :=
      digitChar_lt10_ne_slash _ (Nat.mod_lt n (by omega))
    simp only [Nat.toDigitsCore] at hc
    split at hc
    · rcases List.mem_cons.mp hc with h1 | h1
      · subst h1; exact hd
      · exact h c h1
    · exact toDigitsCore_ne_slash fuel (n / 10) (Nat.digitChar (n % 10) :: ds)
        (fun d hd2 => by
          rcases List.mem_cons.mp hd2 with h1 | h1
          · subst h1; exact hd
          · exact h d h1) c hc

theorem repr_ne_slash (t : Nat) : ∀ c ∈ (Nat.repr t).data, c ≠ '/' :=
  toDigitsCore_ne_slash (t + 1) t [] (fun c hc => absurd hc (List.not_mem_nil c))

theorem basenameGo_no_slash : ∀ (l acc : List Char), (∀ c ∈ l, c ≠ '/') →
    basenameGo l acc = acc ++ l
  | [], acc, _ => by simp [basenameGo]
  | c :: rest, acc, h => by
    have hc : c ≠ '/' := h c (List.mem_cons_self c rest)
    simp only [basenameGo, if_neg hc]
    rw [basenameGo_no_slash rest (acc ++ [c])
      (fun d hd => h d (List.mem_cons_of_mem c hd))]
    simp

theorem basename_slash_tmp (s : String) (h : ∀ c ∈ s.data, c ≠ '/') :
    basename ("/tmp/" ++ s) = s := by
  unfold basename
  have hdata : ("/tmp/" ++ s).data = '/' :: 't' :: 'm' :: 'p' :: '/' :: s.data := by
    rw [String.data_append]
    rfl
  rw [hdata]
  show String.mk (basenameGo s.data []) = s
  rw [basenameGo_no_slash s.data [] h, List.nil_append]

theorem no_slash_of_all (l : List Char)
    (h : l.all (fun c => decide (c ≠ '/')) = true) : ∀ c ∈ l, c ≠ '/' := by
  intro c hc
  exact decide_eq_true_eq.mp (List.all_eq_true.mp h c hc)

theorem opTag_no_slash (op : Operation) : ∀ c ∈ (opTag op).data, c ≠ '/' := by
  cases op <;> exact no_slash_of_all _ (by decide)

theorem no_slash_append (s t : String) (hs : ∀ c ∈ s.data, c ≠ '/')
    (ht : ∀ c ∈ t.data, c ≠ '/') : ∀ c ∈ (s ++ t).data, c ≠ '/' := by
  intro c hc
  rw [String.data_append] at hc
  rcases List.mem_append.mp hc with h | h
  · exact hs c h
  · exact ht c h

theorem outName_no_slash (op : Operation) (t : Nat) :
    ∀ c ∈ (opTag op ++ "_" ++ Nat.repr t ++ ".mp4").data, c ≠ '/' :=
  no_slash_append _ _ (no_slash_append _ _ (no_slash_append _ _ (opTag_no_slash op)
    (no_slash_of_all _ (by decide))) (repr_ne_slash t)) (no_slash_of_all _ (by decide))

theorem routeOutputPath_eq (op : Operation) (t : Nat) :
    routeOutputPath op t = "/tmp/" ++ (opTag op ++ "_" ++ Nat.repr t ++ ".mp4") := by
  unfold routeOutputPath
  simp [String.append_assoc]

/-- Claim C10: the artifact name uploaded to storage is the base name of the
job's output path; that path has the form slash tmp slash, the operation's
tag, an underscore, the millisecond clock value, and .mp4, so every
artifact name ends in .mp4; and two jobs of the same operation handled in
the same millisecond receive the identical output path and artifact name. -/
theorem C10_artifact_naming (op : Operation) (t : Nat) :
    basename (routeOutputPath op t) = opTag op ++ "_" ++ Nat.repr t ++ ".mp4"
    ∧ (∃ pre, basename (routeOutputPath op t) = pre ++ ".mp4")
    ∧ (∀ svcErr gpu out fs st ins n c, Event.uploadAttempt n c ∈
        (processAndUpload svcErr gpu (TransformResult.completed out) fs st
          (routeOutputPath op t) ins).events → n = basename (routeOutputPath op t))
    ∧ (∀ svcErr gpu out fs st ins n c, Event.uploadAttempt n c ∈
        (mergeProcess svcErr gpu (TransformResult.completed out) fs st
          (routeOutputPath op t) ins).events → n = basename (routeOutputPath op t))
    ∧ (∀ op2 t2, op = op2 → t = t2 →
        routeOutputPath op t = routeOutputPath op2 t2) := by
  have hbase : basename (routeOutputPath op t) = opTag op ++ "_" ++ Nat.repr t ++ ".mp4" := by
    rw [routeOutputPath_eq]
    exact basename_slash_tmp _ (outName_no_slash op t)
  refine ⟨hbase, ⟨opTag op ++ "_" ++ Nat.repr t, hbase⟩, ?_, ?_, ?_⟩
  · intro svcErr gpu out fs st ins n c hmem
    cases svcErr with
    | none =>
      rw [processAndUpload_ok_eq] at hmem
      simp at hmem
      exact hmem.1
    | some e =>
      rw [processAndUpload_uploadErr_eq] at hmem
      simp at hmem
      exact hmem.1
  · intro svcErr gpu out fs st ins n c hmem
    cases svcErr with
    | none =>
      rw [mergeProcess_ok_eq] at hmem
      simp at hmem
      exact hmem.1
    | some e =>
      rw [mergeProcess_uploadErr_eq] at hmem
      simp at hmem
      exact hmem.1
  · intro op2 t2 h1 h2
    subst h1
    subst h2
    rfl

/-- Concrete instance of C10: the name the trim job handled at clock value 0
uploads is exactly trimmed_0.mp4, the base name of its output path. -/
theorem C10_artifact_naming_witness :
    ("trimmed_0.mp4" : String) = basename (routeOutputPath Operation.trim 0) :=
  (C10_artifact_naming Operation.trim 0).2.2.1 none (fun n => n) ("d") [] [] []
    ("trimmed_0.mp4") ("d") (by decide)

/-- Does a response carry processAndUpload's upload-failure error payload? -/
def isUploadFailureResp : Resp → Bool
  | Resp.failure 500 e _ => e == "Processing succeeded, but cloud upload failed."
  | _ => false

/-- Counterexample to claim C8: with a URL resolver returning the empty
locator, a job whose transform and upload both succeed is answered with a
success response carrying the empty URL, not with the upload-failure error
the claim requires; getPublicUrl's result is returned unconditionally. -/
theorem C8_empty_url_counterexample :
    (processAndUpload none (fun _ => "") (TransformResult.completed ("data"))
      [] [] ("/tmp/out.mp4") []).response = Resp.success ("")
    ∧ isUploadFailureResp (processAndUpload none (fun _ => "")
      (TransformResult.completed ("data")) [] [] ("/tmp/out.mp4") []).response = false := by
  constructor
  · rw [processAndUpload_ok_eq]
  · rw [processAndUpload_ok_eq]
    rfl

/-- Claim C8 as amended: after a successful upload, publish returns exactly
the resolver's URL for the artifact name, and both pipelines answer success
with that URL unconditionally — an empty or invalid locator is passed on in
the success response rather than being treated as an upload failure. -/
theorem C8_url_passthrough (gpu : String → String) (fs : FS) (st : Storage)
    (o lp n : Path) (ins : List Path) (out : String) :
    (∀ buf, kvLookup fs lp = some buf →
      (uploadToSupabase none gpu fs st lp n).result = Except.ok (gpu n))
    ∧ (processAndUpload none gpu (TransformResult.completed out) fs st o ins).response
      = Resp.success (gpu (basename o))
    ∧ (mergeProcess none gpu (TransformResult.completed out) fs st o ins).response
      = Resp.success (gpu (basename o)) := by
  refine ⟨?_, ?_, ?_⟩
  · intro buf hbuf
    unfold uploadToSupabase
    rw [hbuf]
  · rw [processAndUpload_ok_eq]
  · rw [mergeProcess_ok_eq]

/-- Concrete instance of the amended C8: a readable local file uploads and
publish returns the resolver's URL — here the empty locator. -/
theorem C8_url_passthrough_witness :
    (uploadToSupabase none (fun _ => "") [("/tmp/o.mp4", "d")] [] ("/tmp/o.mp4")
      ("o.mp4")).result = Except.ok ("") :=
  (C8_url_passthrough (fun _ => "") [("/tmp/o.mp4", "d")] [] ("/tmp/x")
    ("/tmp/o.mp4") ("o.mp4") [] ("z")).1 ("d") (by decide)

end FfmpegServer
